import Mathlib

/-!
Shallow embedding of the certificate-loading and connection-handling core of
the https-wrapper TLS reverse proxy (src/certificate.rs and src/main.rs).

Modelling conventions:
* Byte strings (file contents, DER blobs) are `List Nat`.
* The filesystem is a partial map from path to contents; `fs p = none`
  means the file does not exist.  `fs::metadata`, `fs::read` and
  `File::open` are modelled as succeeding exactly when the file exists
  (no permission failures or races in the model).
* The openssl library is modelled abstractly: an `X509` object is
  represented by the outcome of its `to_der` serialisation, a `PKey` by
  the outcome of `private_key_to_pkcs8`, a parsed `Pkcs12` container by
  its `parse2` behaviour, and the library itself by the behaviour of
  `Pkcs12::from_der`.  Theorems quantify over all such behaviours.
* The rustls-pemfile library is likewise a pair of abstract functions:
  the stream of certificate-parse results produced by `certs`, and the
  outcome of `private_key`.
* Errors are the exact strings the Rust code builds with `format!`
  (the code's error type is `Box<dyn Error>` carrying a message).
-/

deriving instance DecidableEq for Except

/-- The rustls `PrivateKeyDer` sum type: a DER-encoded private key tagged
with its encoding. -/
inductive PrivateKeyDer where
  | Pkcs1 (der : List Nat)
  | Sec1 (der : List Nat)
  | Pkcs8 (der : List Nat)
  deriving DecidableEq

/-- Whether a key is in the PKCS#8 variant of `PrivateKeyDer`. -/
def PrivateKeyDer.isPkcs8 : PrivateKeyDer → Bool
  | PrivateKeyDer.Pkcs8 _ => true
  | _ => false

/-- An openssl `X509` certificate object, represented by the outcome of its
`to_der` serialisation. -/
structure X509 where
  to_der : Except String (List Nat)
  deriving DecidableEq

/-- An openssl `PKey` private-key object, represented by the outcome of its
`private_key_to_pkcs8` re-encoding. -/
structure PKey where
  private_key_to_pkcs8 : Except String (List Nat)
  deriving DecidableEq

/-- The contents of a successfully decrypted PKCS#12 container, as returned
by openssl's `Pkcs12::parse2`: optional end-entity certificate, optional
list of chain/CA certificates, optional private key. -/
structure ParsedPkcs12 where
  cert : Option X509
  ca : Option (List X509)
  pkey : Option PKey

/-- A structurally parsed PKCS#12 container, represented by the behaviour of
its password-taking `parse2` extraction. -/
structure Pkcs12 where
  parse2 : String → Except String ParsedPkcs12

/-- Abstract model of the openssl entry point used by the code:
`Pkcs12::from_der` on the raw file bytes. -/
structure OpenSSLLib where
  from_der : List Nat → Except String Pkcs12

/-- Abstract model of the rustls-pemfile library: `certs` yields the stream
of certificate-parse results read from the given file bytes, in file order;
`private_key` yields the (optional) private key parsed from key-file
bytes. -/
structure PemLib where
  certs : List Nat → List (Except String (List Nat))
  private_key : List Nat → Except String (Option PrivateKeyDer)

/-- The filesystem: a map from path to file contents when the file
exists. -/
abbrev FS := String → Option (List Nat)

/-- Index of the last occurrence of the dot character in a list of
characters, if any. -/
def lastDotIndex : List Char → Option Nat
  | [] => none
  | c :: rest =>
    match lastDotIndex rest with
    | some i => some (i + 1)
    | none => if c = '.' then some 0 else none

/-- Split a character list on a separator character (the pieces between
separators, in order). -/
def splitOnChar : List Char → Char → List (List Char)
  | [], _ => [[]]
  | c :: rest, sep =>
    if c = sep then [] :: splitOnChar rest sep
    else
      match splitOnChar rest sep with
      | [] => [[c]]
      | t :: ts => (c :: t) :: ts

/-- ASCII lower-casing of a string, character by character (the behaviour
of Rust's `to_lowercase` on the ASCII extensions the code compares
against). -/
def toLowerStr (s : String) : String :=
  String.mk (s.data.map Char.toLower)

/-- The final path component, as in Rust's `Path::file_name` for ordinary
paths (components separated by slashes). -/
def fileNameOf (path : String) : String :=
  String.mk ((splitOnChar path.data '/').getLastD [])

/-- Model of Rust's `Path::extension`: the part of the file name after its
last dot, or `none` when the file name is `..`, has no dot, or starts with
its only dot. -/
def Path.extension (path : String) : Option String :=
  let file := fileNameOf path
  if file = ".." then none
  else
    match lastDotIndex file.data with
    | none => none
    | some 0 => none
    | some (i + 1) => some (String.mk (file.data.drop (i + 2)))

/-- Step 4a of `parse_pfx_bytes`: DER-encode the optional end-entity
certificate into a zero- or one-element list. -/
def encodeMainCert : Option X509 → Except String (List (List Nat))
  | none => Except.ok []
  | some c =>
    match c.to_der with
    | Except.error e => Except.error ("Failed to encode certificate to DER: " ++ e)
    | Except.ok d => Except.ok [d]

/-- Step 4b of `parse_pfx_bytes`: DER-encode every chain certificate in
order, stopping at the first failure (the Rust for-loop with `?`). -/
def encodeChainCerts : List X509 → Except String (List (List Nat))
  | [] => Except.ok []
  | c :: rest =>
    match c.to_der with
    | Except.error e => Except.error ("Failed to encode chain certificate to DER: " ++ e)
    | Except.ok d =>
      match encodeChainCerts rest with
      | Except.error e => Except.error e
      | Except.ok ds => Except.ok (d :: ds)

/-- The chain certificates of the container, or none when the `ca` field is
absent. -/
def encodeCaCerts : Option (List X509) → Except String (List (List Nat))
  | none => Except.ok []
  | some chain => encodeChainCerts chain

/-- `parse_pfx_bytes` from src/certificate.rs: parse a PFX blob with a
password into a certificate chain and a PKCS#8 private key. -/
def parse_pfx_bytes (ossl : OpenSSLLib) (data : List Nat) (password : String) :
    Except String (List (List Nat) × PrivateKeyDer) :=
  if data.isEmpty then Except.error "Empty PFX data provided"
  else
    match ossl.from_der data with
    | Except.error e => Except.error ("Failed to parse PFX structure: " ++ e)
    | Except.ok pkcs12 =>
      match pkcs12.parse2 password with
      | Except.error e =>
        if password.isEmpty then
          Except.error ("Failed to parse PFX file: " ++ e ++
            ". This file may require a password. Use --password option.")
        else
          Except.error ("Failed to parse PFX file with provided password: " ++ e)
      | Except.ok parsed =>
        match encodeMainCert parsed.cert with
        | Except.error e => Except.error e
        | Except.ok main_certs =>
          match encodeCaCerts parsed.ca with
          | Except.error e => Except.error e
          | Except.ok chain_certs =>
            match parsed.pkey with
            | none => Except.error "No private key found in PFX file"
            | some private_key =>
              match private_key.private_key_to_pkcs8 with
              | Except.error e =>
                Except.error ("Failed to encode private key to PKCS#8: " ++ e)
              | Except.ok key_der =>
                Except.ok (main_certs ++ chain_certs, PrivateKeyDer.Pkcs8 key_der)

/-- The extension check of `load_certificate` (active only when
`validate_extension` holds): the error it raises, if any. -/
def pfxExtensionError (path : String) (validate_extension : Bool) : Option String :=
  if validate_extension then
    match Path.extension path with
    | some ext0 =>
      let ext := toLowerStr ext0
      if ext ≠ "pfx" ∧ ext ≠ "p12" then
        some ("Invalid PFX file extension \x27" ++ ext ++ "\x27. Expected .pfx or .p12")
      else none
    | none => none
  else none

/-- `load_certificate` from src/certificate.rs: load a PFX certificate
bundle from a file, with optional password and optional extension
validation. -/
def load_certificate (ossl : OpenSSLLib) (fs : FS) (certificate_path : String)
    (password : Option String) (validate_extension : Bool) :
    Except String (List (List Nat) × PrivateKeyDer) :=
  match fs certificate_path with
  | none => Except.error ("File not found: " ++ certificate_path)
  | some pfx_data =>
    match pfxExtensionError certificate_path validate_extension with
    | some e => Except.error e
    | none =>
      if pfx_data.isEmpty then Except.error "File is empty"
      else parse_pfx_bytes ossl pfx_data (password.getD "")

/-- Rust's `Iterator::collect::<Result<Vec<_>, _>>` specialised to the
certificate stream: all items, or the first error. -/
def collectResults : List (Except String (List Nat)) → Except String (List (List Nat))
  | [] => Except.ok []
  | Except.error e :: _ => Except.error e
  | Except.ok c :: rest =>
    match collectResults rest with
    | Except.error e => Except.error e
    | Except.ok cs => Except.ok (c :: cs)

/-- `load_pem_certificate` from src/certificate.rs: load a certificate
chain and a private key from two separate PEM files. -/
def load_pem_certificate (pem : PemLib) (fs : FS) (cert_path key_path : String) :
    Except String (List (List Nat) × PrivateKeyDer) :=
  match fs cert_path with
  | none => Except.error ("Certificate file not found: " ++ cert_path)
  | some cert_bytes =>
    match fs key_path with
    | none => Except.error ("Key file not found: " ++ key_path)
    | some key_bytes =>
      match collectResults (pem.certs cert_bytes) with
      | Except.error e => Except.error ("Failed to parse PEM certificate: " ++ e)
      | Except.ok certs =>
        if certs.isEmpty then Except.error "No certificates found in PEM file"
        else
          match pem.private_key key_bytes with
          | Except.error e => Except.error ("Failed to parse PEM private key: " ++ e)
          | Except.ok none => Except.error "No private key found in PEM file"
          | Except.ok (some k) => Except.ok (certs, k)

/-- The certificate-type tag of src/certificate.rs. -/
inductive CertType where
  | Pfx
  | Pem
  deriving DecidableEq

/-- `detect_cert_type` from src/certificate.rs: choose the loader from the
(lower-cased) file extension. -/
def detect_cert_type (path : String) : Except String CertType :=
  match Path.extension path with
  | some ext0 =>
    let ext := toLowerStr ext0
    if ext = "pfx" ∨ ext = "p12" then Except.ok CertType.Pfx
    else if ext = "pem" ∨ ext = "crt" ∨ ext = "cer" ∨ ext = "cert" ∨ ext = "key" then
      Except.ok CertType.Pem
    else Except.error ("Unsupported certificate file extension: ." ++ ext)
  | none => Except.error "Certificate file has no extension"

/-- The three certificate-argument shapes `main` dispatches on, as left by
clap: `--pfx [--password]`, `--cert --key` (clap guarantees the key is
present with the cert), or positional certificate plus optional
password-or-key argument. -/
inductive CertArgs where
  | pfxMode (path : String) (password : Option String)
  | pemMode (cert_path key_path : String)
  | positionalMode (certificate : String) (password_or_key : Option String)

/-- The certificate-selection logic of `main` in src/main.rs (lines 53-79):
dispatch to the loaders according to the argument shape. -/
def main_load_certificate (ossl : OpenSSLLib) (pem : PemLib) (fs : FS) :
    CertArgs → Except String (List (List Nat) × PrivateKeyDer)
  | CertArgs.pfxMode path password => load_certificate ossl fs path password false
  | CertArgs.pemMode cp kp => load_pem_certificate pem fs cp kp
  | CertArgs.positionalMode cp pk =>
    match detect_cert_type cp with
    | Except.error e => Except.error ("Failed to detect certificate type: " ++ e)
    | Except.ok CertType.Pfx => load_certificate ossl fs cp pk true
    | Except.ok CertType.Pem =>
      match pk with
      | none => Except.error "PEM certificate requires a key file as the second argument"
      | some kp => load_pem_certificate pem fs cp kp

/-- The environment one spawned connection task runs against: the outcome
of the TLS handshake (`tls_acceptor.accept`), of the backend dial
(`TcpStream::connect`), and of the bidirectional relay
(`tokio::io::copy_bidirectional`). -/
structure ConnEnv where
  tls_accept : Except String Unit
  backend_connect : Except String Unit
  copy_bidirectional : Except String Unit

/-- Observable events of one connection task, in the order the task
performs them. -/
inductive ConnEvent where
  | handshakeOk
  | handshakeFailed (e : String)
  | dialOk
  | dialFailed (e : String)
  | relayStarted
  | relayFinished (r : Except String Unit)
  deriving DecidableEq

/-- The per-connection task body spawned by `main` (src/main.rs lines
99-127), as the trace of events it produces: handshake, then on success
backend dial, then on success the bidirectional relay; an early failure
returns at once. -/
def handle_connection (env : ConnEnv) : List ConnEvent :=
  match env.tls_accept with
  | Except.error e => [ConnEvent.handshakeFailed e]
  | Except.ok _ =>
    match env.backend_connect with
    | Except.error e => [ConnEvent.handshakeOk, ConnEvent.dialFailed e]
    | Except.ok _ =>
      [ConnEvent.handshakeOk, ConnEvent.dialOk, ConnEvent.relayStarted,
        ConnEvent.relayFinished env.copy_bidirectional]

/-! ### Helper lemmas -/

/-- Looking up an index inside the left part of an appended string. -/
theorem data_getElem_append (a x : String) (i : Nat) (h : i < a.data.length) :
    (a ++ x).data[i]? = a.data[i]? := by
  rw [String.data_append, List.getElem?_append]
  exact if_pos h

/-- Two strings differing at some character index are different. -/
theorem String.ne_of_data_getElem (i : Nat) {s t : String}
    (h : s.data[i]? ≠ t.data[i]?) : s ≠ t :=
  fun he => h (by rw [he])

/-- A nonempty string has `isEmpty = false`. -/
theorem String.isEmpty_false_of_ne {s : String} (h : s ≠ "") : s.isEmpty = false := by
  by_contra hc
  rw [Bool.not_eq_false] at hc
  exact h ((String.isEmpty_iff s).mp hc)

/-- The empty-password PFX decryption message and the wrong-password PFX
decryption message are different strings, whatever the underlying openssl
errors are. -/
theorem pfx_password_msgs_ne (e1 e2 : String) :
    "Failed to parse PFX file: " ++ e1 ++
      ". This file may require a password. Use --password option." ≠
    "Failed to parse PFX file with provided password: " ++ e2 := by
  have hlen : (24 : Nat) < ("Failed to parse PFX file: " ++ e1).data.length := by
    rw [String.data_append, List.length_append]
    have h26 : ("Failed to parse PFX file: ").data.length = 26 := by decide
    omega
  apply String.ne_of_data_getElem 24
  rw [data_getElem_append _ _ 24 hlen, data_getElem_append _ _ 24 (by decide),
    data_getElem_append _ _ 24 (by decide)]
  decide

/-- The missing-private-key message differs from the empty-password
decryption message. -/
theorem missing_key_msg_ne_password_required (e : String) :
    ("No private key found in PFX file" : String) ≠
      "Failed to parse PFX file: " ++ e ++
        ". This file may require a password. Use --password option." := by
  have hlen : (0 : Nat) < ("Failed to parse PFX file: " ++ e).data.length := by
    rw [String.data_append, List.length_append]
    have h26 : ("Failed to parse PFX file: ").data.length = 26 := by decide
    omega
  apply String.ne_of_data_getElem 0
  rw [data_getElem_append _ _ 0 hlen, data_getElem_append _ _ 0 (by decide)]
  decide

/-- The missing-private-key message differs from the wrong-password
decryption message. -/
theorem missing_key_msg_ne_invalid_password (e : String) :
    ("No private key found in PFX file" : String) ≠
      "Failed to parse PFX file with provided password: " ++ e := by
  apply String.ne_of_data_getElem 0
  rw [data_getElem_append _ _ 0 (by decide)]
  decide

/-- Chain encoding succeeds exactly elementwise: an `ok` outcome pairs each
input certificate, in order, with its DER encoding. -/
theorem encodeChainCerts_forall2 (chain : List X509) (ds : List (List Nat))
    (h : encodeChainCerts chain = Except.ok ds) :
    List.Forall₂ (fun c d => c.to_der = Except.ok d) chain ds := by
  induction chain generalizing ds with
  | nil =>
    simp [encodeChainCerts] at h
    subst h
    exact List.Forall₂.nil
  | cons c rest ih =>
    unfold encodeChainCerts at h
    cases hc : c.to_der with
    | error e => rw [hc] at h; simp at h
    | ok d =>
      rw [hc] at h
      cases hr : encodeChainCerts rest with
      | error e => rw [hr] at h; simp at h
      | ok ds2 =>
        rw [hr] at h
        simp at h
        subst h
        exact List.Forall₂.cons hc (ih ds2 hr)

/-- Collecting a stream of already-successful results returns exactly that
list of values. -/
theorem collectResults_map_ok (l : List (List Nat)) :
    collectResults (l.map Except.ok) = Except.ok l := by
  induction l with
  | nil => rfl
  | cons c rest ih => simp [collectResults, ih]

/-- Evaluation of `parse_pfx_bytes` up to the decryption failure. -/
theorem parse_pfx_bytes_decrypt_error (ossl : OpenSSLLib) (data : List Nat)
    (password : String) (p12 : Pkcs12) (e : String)
    (hne : data.isEmpty = false)
    (hfd : ossl.from_der data = Except.ok p12)
    (hp : p12.parse2 password = Except.error e) :
    parse_pfx_bytes ossl data password =
      (if password.isEmpty then
        Except.error ("Failed to parse PFX file: " ++ e ++
          ". This file may require a password. Use --password option.")
      else
        Except.error ("Failed to parse PFX file with provided password: " ++ e)) := by
  simp only [parse_pfx_bytes, hne, Bool.false_eq_true, if_false, hfd, hp]

/-- Evaluation of `parse_pfx_bytes` past decryption and certificate
encoding, down to the private-key steps. -/
theorem parse_pfx_bytes_extracted (ossl : OpenSSLLib) (data : List Nat)
    (password : String) (p12 : Pkcs12) (parsed : ParsedPkcs12)
    (mc cc : List (List Nat))
    (hne : data.isEmpty = false)
    (hfd : ossl.from_der data = Except.ok p12)
    (hp : p12.parse2 password = Except.ok parsed)
    (hm : encodeMainCert parsed.cert = Except.ok mc)
    (hc : encodeCaCerts parsed.ca = Except.ok cc) :
    parse_pfx_bytes ossl data password =
      (match parsed.pkey with
      | none => Except.error "No private key found in PFX file"
      | some pk =>
        match pk.private_key_to_pkcs8 with
        | Except.error e =>
          Except.error ("Failed to encode private key to PKCS#8: " ++ e)
        | Except.ok kd => Except.ok (mc ++ cc, PrivateKeyDer.Pkcs8 kd)) := by
  simp only [parse_pfx_bytes, hne, Bool.false_eq_true, if_false, hfd, hp, hm, hc]

/-! ### Claim theorems -/

/-- C10: calling `load_certificate` with password `none` is equivalent to
calling it with password `some ""` for every path and every
`validate_extension` flag; the absent password is mapped to the empty
string before decoding, so both calls give the same bundle or the same
error. -/
theorem load_certificate_none_password_eq_empty
    (ossl : OpenSSLLib) (fs : FS) (p : String) (vext : Bool) :
    load_certificate ossl fs p none vext = load_certificate ossl fs p (some "") vext := rfl

/-- C9: within one accepted connection the steps are strictly ordered: the
backend dial happens only after a successful TLS handshake, relaying starts
only after a successful dial, and a handshake or dial failure ends the
trace at once with no retry and no relay events. -/
theorem connection_steps_ordered (env : ConnEnv) :
    (∀ e, env.tls_accept = Except.error e →
      handle_connection env = [ConnEvent.handshakeFailed e]) ∧
    (∀ e, env.tls_accept = Except.ok () → env.backend_connect = Except.error e →
      handle_connection env = [ConnEvent.handshakeOk, ConnEvent.dialFailed e]) ∧
    (env.tls_accept = Except.ok () → env.backend_connect = Except.ok () →
      handle_connection env =
        [ConnEvent.handshakeOk, ConnEvent.dialOk, ConnEvent.relayStarted,
          ConnEvent.relayFinished env.copy_bidirectional]) ∧
    (ConnEvent.relayStarted ∈ handle_connection env →
      env.tls_accept = Except.ok () ∧ env.backend_connect = Except.ok ()) ∧
    (∀ e, ConnEvent.dialFailed e ∈ handle_connection env ∨
        ConnEvent.dialOk ∈ handle_connection env →
      env.tls_accept = Except.ok ()) := by
  obtain ⟨ta, bc, cb⟩ := env
  cases ta with
  | error e => simp [handle_connection]
  | ok u =>
    cases u
    cases bc with
    | error e => simp [handle_connection]
    | ok v => cases v; simp [handle_connection]

/-- C9 witness: a connection whose handshake succeeds and whose backend
dial fails produces exactly the handshake event followed by the dial
failure, and nothing after. -/
theorem connection_steps_ordered_witness :
    handle_connection
        (ConnEnv.mk (Except.ok ()) (Except.error "connection refused") (Except.ok ())) =
      [ConnEvent.handshakeOk, ConnEvent.dialFailed "connection refused"] :=
  (connection_steps_ordered
    (ConnEnv.mk (Except.ok ()) (Except.error "connection refused") (Except.ok ()))).2.1
    "connection refused" rfl rfl

/-- C7: the PEM loader checks that both files exist before opening either:
a missing certificate file gives an error naming the certificate path, and
an existing certificate file with a missing key file gives an error naming
the key path.  In the second case the conclusion holds for every
certificate-file content and every PEM-parser behaviour, so the
certificate file is never opened for parsing. -/
theorem pem_existence_checked_first (pem : PemLib) (fs : FS) (cp kp : String) :
    (fs cp = none →
      load_pem_certificate pem fs cp kp =
        Except.error ("Certificate file not found: " ++ cp)) ∧
    (∀ cb, fs cp = some cb → fs kp = none →
      load_pem_certificate pem fs cp kp =
        Except.error ("Key file not found: " ++ kp)) := by
  constructor
  · intro h
    simp [load_pem_certificate, h]
  · intro cb h1 h2
    simp [load_pem_certificate, h1, h2]

/-- Fixture for the C7 witness: a filesystem holding only one PEM
certificate file. -/
def fsW7 : FS := fun p => if p = "c.pem" then some [1] else none

/-- Fixture for the C7 witness: an inert PEM-parser behaviour. -/
def pemW7 : PemLib where
  certs := fun _ => []
  private_key := fun _ => Except.error "unused"

/-- C7 witness: with only `c.pem` on disk, loading a missing certificate
path names the certificate path, and loading `c.pem` with a missing key
file names the key path. -/
theorem pem_existence_checked_first_witness :
    load_pem_certificate pemW7 fsW7 "missing.pem" "k.pem" =
      Except.error ("Certificate file not found: " ++ "missing.pem") ∧
    load_pem_certificate pemW7 fsW7 "c.pem" "k.pem" =
      Except.error ("Key file not found: " ++ "k.pem") :=
  ⟨(pem_existence_checked_first pemW7 fsW7 "missing.pem" "k.pem").1 rfl,
    (pem_existence_checked_first pemW7 fsW7 "c.pem" "k.pem").2 [1] rfl rfl⟩

/-- C3: when a PKCS#12 container parses but its contents fail to
decrypt/extract, the resulting error depends on the password: an empty
password gives the PasswordRequired message hinting at the password
option, a non-empty password gives the InvalidPassword message, and the
two messages are different for the same input bytes. -/
theorem pfx_decrypt_error_depends_on_password
    (ossl : OpenSSLLib) (data : List Nat) (password : String) (p12 : Pkcs12)
    (e1 e2 : String)
    (hne : data.isEmpty = false)
    (hpw : password ≠ "")
    (hfd : ossl.from_der data = Except.ok p12)
    (h1 : p12.parse2 "" = Except.error e1)
    (h2 : p12.parse2 password = Except.error e2) :
    parse_pfx_bytes ossl data "" =
      Except.error ("Failed to parse PFX file: " ++ e1 ++
        ". This file may require a password. Use --password option.") ∧
    parse_pfx_bytes ossl data password =
      Except.error ("Failed to parse PFX file with provided password: " ++ e2) ∧
    ("Failed to parse PFX file: " ++ e1 ++
        ". This file may require a password. Use --password option.") ≠
      ("Failed to parse PFX file with provided password: " ++ e2) := by
  refine ⟨?_, ?_, pfx_password_msgs_ne e1 e2⟩
  · rw [parse_pfx_bytes_decrypt_error ossl data "" p12 e1 hne hfd h1]
    rfl
  · rw [parse_pfx_bytes_decrypt_error ossl data password p12 e2 hne hfd h2]
    simp [String.isEmpty_false_of_ne hpw]

/-- Fixture for the C3 witness: a container that extracts only under the
password hunter2 and otherwise reports a MAC failure. -/
def p12W3 : Pkcs12 where
  parse2 := fun pw =>
    if pw = "hunter2" then Except.ok (ParsedPkcs12.mk none none none)
    else Except.error "mac verify failure"

/-- Fixture for the C3 witness: openssl behaviour whose structural parse
always yields the locked container. -/
def osslW3 : OpenSSLLib where
  from_der := fun _ => Except.ok p12W3

/-- C3 witness: on the same one-byte input, the empty password and the
password wrong produce the two distinct messages. -/
theorem pfx_decrypt_error_depends_on_password_witness :
    parse_pfx_bytes osslW3 [1] "" =
      Except.error ("Failed to parse PFX file: " ++ "mac verify failure" ++
        ". This file may require a password. Use --password option.") ∧
    parse_pfx_bytes osslW3 [1] "wrong" =
      Except.error ("Failed to parse PFX file with provided password: " ++
        "mac verify failure") ∧
    ("Failed to parse PFX file: " ++ "mac verify failure" ++
        ". This file may require a password. Use --password option.") ≠
      ("Failed to parse PFX file with provided password: " ++ "mac verify failure") :=
  pfx_decrypt_error_depends_on_password osslW3 [1] "wrong" p12W3
    "mac verify failure" "mac verify failure" rfl (by decide) rfl rfl rfl

/-- Main-certificate encoding succeeds exactly elementwise: an `ok`
outcome pairs the optional end-entity certificate, viewed as a zero- or
one-element list, with its DER encoding. -/
theorem encodeMainCert_forall2 (oc : Option X509) (mc : List (List Nat))
    (h : encodeMainCert oc = Except.ok mc) :
    List.Forall₂ (fun c d => c.to_der = Except.ok d) oc.toList mc := by
  cases oc with
  | none =>
    simp [encodeMainCert] at h
    subst h
    exact List.Forall₂.nil
  | some c =>
    cases hc : c.to_der with
    | error e => simp [encodeMainCert, hc] at h
    | ok d =>
      simp [encodeMainCert, hc] at h
      subst h
      exact List.Forall₂.cons hc List.Forall₂.nil

/-- CA-certificate encoding succeeds exactly elementwise over the optional
chain list (absent meaning empty). -/
theorem encodeCaCerts_forall2 (oca : Option (List X509)) (cds : List (List Nat))
    (h : encodeCaCerts oca = Except.ok cds) :
    List.Forall₂ (fun c d => c.to_der = Except.ok d) (oca.getD []) cds := by
  cases oca with
  | none =>
    simp [encodeCaCerts] at h
    subst h
    exact List.Forall₂.nil
  | some chain => exact encodeChainCerts_forall2 chain cds h

/-- C4: every PKCS#12 bundle that decodes successfully yields the chain
`mc ++ cds`, where `mc` is the DER encoding of the end-entity certificate
when the container has one (and empty when it does not, so the leaf, when
present, sits at index 0), and `cds` pairs one-for-one, in container
order, with the chain/CA certificates (an absent `ca` field contributes
nothing): no certificate is dropped or reordered. -/
theorem pfx_chain_order
    (ossl : OpenSSLLib) (data : List Nat) (password : String) (p12 : Pkcs12)
    (parsed : ParsedPkcs12) (mc cds : List (List Nat)) (pk : PKey) (kd : List Nat)
    (hne : data.isEmpty = false)
    (hfd : ossl.from_der data = Except.ok p12)
    (hp : p12.parse2 password = Except.ok parsed)
    (hm : encodeMainCert parsed.cert = Except.ok mc)
    (hca : encodeCaCerts parsed.ca = Except.ok cds)
    (hpk : parsed.pkey = some pk)
    (hkd : pk.private_key_to_pkcs8 = Except.ok kd) :
    parse_pfx_bytes ossl data password =
      Except.ok (mc ++ cds, PrivateKeyDer.Pkcs8 kd) ∧
    List.Forall₂ (fun x d => x.to_der = Except.ok d) parsed.cert.toList mc ∧
    List.Forall₂ (fun x d => x.to_der = Except.ok d) (parsed.ca.getD []) cds := by
  refine ⟨?_, encodeMainCert_forall2 parsed.cert mc hm,
    encodeCaCerts_forall2 parsed.ca cds hca⟩
  rw [parse_pfx_bytes_extracted ossl data password p12 parsed mc cds hne hfd hp hm hca]
  simp [hpk, hkd]

/-- Fixture for the C4 witness: extracted container contents with one
end-entity certificate, two chain certificates and a key. -/
def parsedW4 : ParsedPkcs12 where
  cert := some (X509.mk (Except.ok [1]))
  ca := some [X509.mk (Except.ok [2]), X509.mk (Except.ok [3])]
  pkey := some (PKey.mk (Except.ok [7]))

/-- Fixture for the C4 witness: a container extracting to `parsedW4` under
any password. -/
def p12W4 : Pkcs12 where
  parse2 := fun _ => Except.ok parsedW4

/-- Fixture for the C4 witness: openssl behaviour producing `p12W4`. -/
def osslW4 : OpenSSLLib where
  from_der := fun _ => Except.ok p12W4

/-- C4 witness: the concrete bundle decodes to the end-entity certificate
first and the two chain certificates in container order. -/
theorem pfx_chain_order_witness :
    parse_pfx_bytes osslW4 [5] "pw" =
      Except.ok ([[1]] ++ [[2], [3]], PrivateKeyDer.Pkcs8 [7]) ∧
    List.Forall₂ (fun x d => x.to_der = Except.ok d) parsedW4.cert.toList [[1]] ∧
    List.Forall₂ (fun x d => x.to_der = Except.ok d) (parsedW4.ca.getD []) [[2], [3]] :=
  pfx_chain_order osslW4 [5] "pw" p12W4 parsedW4 [[1]] [[2], [3]]
    (PKey.mk (Except.ok [7])) [7]
    rfl rfl rfl rfl rfl rfl rfl

/-- C8: a PKCS#12 bundle that parses and decrypts successfully (and whose
certificates encode successfully) but contains no private key fails with
the MissingPrivateKey error, and that error differs from both
decryption-failure messages; the certificates found give no partial
success. -/
theorem pfx_missing_key_error
    (ossl : OpenSSLLib) (data : List Nat) (password : String) (p12 : Pkcs12)
    (parsed : ParsedPkcs12) (mc cc : List (List Nat))
    (hne : data.isEmpty = false)
    (hfd : ossl.from_der data = Except.ok p12)
    (hp : p12.parse2 password = Except.ok parsed)
    (hm : encodeMainCert parsed.cert = Except.ok mc)
    (hc : encodeCaCerts parsed.ca = Except.ok cc)
    (hpk : parsed.pkey = none) :
    parse_pfx_bytes ossl data password =
      Except.error "No private key found in PFX file" ∧
    (∀ e, ("No private key found in PFX file" : String) ≠
      "Failed to parse PFX file: " ++ e ++
        ". This file may require a password. Use --password option.") ∧
    (∀ e, ("No private key found in PFX file" : String) ≠
      "Failed to parse PFX file with provided password: " ++ e) := by
  refine ⟨?_, missing_key_msg_ne_password_required,
    missing_key_msg_ne_invalid_password⟩
  rw [parse_pfx_bytes_extracted ossl data password p12 parsed mc cc hne hfd hp hm hc]
  simp [hpk]

/-- Fixture for the C8 witness: container contents with certificates but
no private key. -/
def parsedW8 : ParsedPkcs12 where
  cert := some (X509.mk (Except.ok [1]))
  ca := some [X509.mk (Except.ok [2])]
  pkey := none

/-- Fixture for the C8 witness: a container extracting to `parsedW8`. -/
def p12W8 : Pkcs12 where
  parse2 := fun _ => Except.ok parsedW8

/-- Fixture for the C8 witness: openssl behaviour producing `p12W8`. -/
def osslW8 : OpenSSLLib where
  from_der := fun _ => Except.ok p12W8

/-- C8 witness: the concrete key-less bundle fails with the
missing-private-key message, distinct from the decryption messages. -/
theorem pfx_missing_key_error_witness :
    parse_pfx_bytes osslW8 [3] "pw" =
      Except.error "No private key found in PFX file" ∧
    (∀ e, ("No private key found in PFX file" : String) ≠
      "Failed to parse PFX file: " ++ e ++
        ". This file may require a password. Use --password option.") ∧
    (∀ e, ("No private key found in PFX file" : String) ≠
      "Failed to parse PFX file with provided password: " ++ e) :=
  pfx_missing_key_error osslW8 [3] "pw" p12W8 parsedW8 [[1]] [[2]]
    rfl rfl rfl rfl rfl rfl

/-- C1 (amended): every PKCS#12 source that loads successfully returns its
private key re-encoded in the Pkcs8 variant; the PEM loader instead
returns the key exactly as the PEM parser produced it (whatever
`PrivateKeyDer` variant that is), with no re-encoding. -/
theorem keys_pkcs8_only_for_pfx :
    (∀ (ossl : OpenSSLLib) (data : List Nat) (password : String)
        (certs : List (List Nat)) (key : PrivateKeyDer),
      parse_pfx_bytes ossl data password = Except.ok (certs, key) →
      key.isPkcs8 = true) ∧
    (∀ (pem : PemLib) (fs : FS) (cert_path key_path : String)
        (certs : List (List Nat)) (key : PrivateKeyDer),
      load_pem_certificate pem fs cert_path key_path = Except.ok (certs, key) →
      ∃ key_bytes, fs key_path = some key_bytes ∧
        pem.private_key key_bytes = Except.ok (some key)) := by
  constructor
  · intro ossl data password certs key h
    cases hemp : data.isEmpty with
    | true => simp [parse_pfx_bytes, hemp] at h
    | false =>
      cases hfd : ossl.from_der data with
      | error e => simp [parse_pfx_bytes, hemp, hfd] at h
      | ok p12 =>
        cases hp : p12.parse2 password with
        | error e =>
          simp only [parse_pfx_bytes, hemp, Bool.false_eq_true, if_false, hfd, hp] at h
          split at h <;> simp at h
        | ok parsed =>
          cases hm : encodeMainCert parsed.cert with
          | error e => simp [parse_pfx_bytes, hemp, hfd, hp, hm] at h
          | ok mc =>
            cases hcc : encodeCaCerts parsed.ca with
            | error e => simp [parse_pfx_bytes, hemp, hfd, hp, hm, hcc] at h
            | ok cc =>
              cases hpk : parsed.pkey with
              | none => simp [parse_pfx_bytes, hemp, hfd, hp, hm, hcc, hpk] at h
              | some pk =>
                cases hkd : pk.private_key_to_pkcs8 with
                | error e =>
                  simp [parse_pfx_bytes, hemp, hfd, hp, hm, hcc, hpk, hkd] at h
                | ok kd =>
                  simp [parse_pfx_bytes, hemp, hfd, hp, hm, hcc, hpk, hkd] at h
                  obtain ⟨h1, h2⟩ := h
                  subst h2
                  rfl
  · intro pem fs cert_path key_path certs key h
    cases hc : fs cert_path with
    | none => simp [load_pem_certificate, hc] at h
    | some cert_bytes =>
      cases hk : fs key_path with
      | none => simp [load_pem_certificate, hc, hk] at h
      | some key_bytes =>
        cases hcol : collectResults (pem.certs cert_bytes) with
        | error e => simp [load_pem_certificate, hc, hk, hcol] at h
        | ok cs =>
          cases hemp : cs.isEmpty with
          | true => simp [load_pem_certificate, hc, hk, hcol, hemp] at h
          | false =>
            cases hpkr : pem.private_key key_bytes with
            | error e => simp [load_pem_certificate, hc, hk, hcol, hemp, hpkr] at h
            | ok ko =>
              cases ko with
              | none => simp [load_pem_certificate, hc, hk, hcol, hemp, hpkr] at h
              | some k =>
                simp [load_pem_certificate, hc, hk, hcol, hemp, hpkr] at h
                obtain ⟨h1, h2⟩ := h
                subst h2
                exact ⟨key_bytes, rfl, by rw [hpkr]⟩

/-- Fixture for C1: PEM-parser behaviour producing one certificate and an
RSA (PKCS#1-encoded) private key, as rustls-pemfile does for a key file
holding a BEGIN RSA PRIVATE KEY block. -/
def pemRsaLib : PemLib where
  certs := fun _ => [Except.ok [10]]
  private_key := fun _ => Except.ok (some (PrivateKeyDer.Pkcs1 [20]))

/-- Fixture for C1: a filesystem holding a PEM certificate file and a PEM
key file. -/
def fsPemPair : FS := fun p =>
  if p = "server.crt" then some [1]
  else if p = "server.key" then some [2]
  else none

/-- C1 counterexample: a PEM pair that loads successfully yet returns the
private key in the Pkcs1 variant, not normalized to Pkcs8 as the claim
asserts for every certificate source. -/
theorem keys_pkcs8_counterexample :
    load_pem_certificate pemRsaLib fsPemPair "server.crt" "server.key" =
      Except.ok ([[10]], PrivateKeyDer.Pkcs1 [20]) ∧
    (PrivateKeyDer.Pkcs1 [20]).isPkcs8 = false :=
  ⟨rfl, rfl⟩

/-- Fixture for the C1 witness: container contents holding one certificate
and one private key. -/
def parsedW1 : ParsedPkcs12 where
  cert := some (X509.mk (Except.ok [1]))
  ca := none
  pkey := some (PKey.mk (Except.ok [7]))

/-- Fixture for the C1 witness: a container extracting to `parsedW1`. -/
def p12W1 : Pkcs12 where
  parse2 := fun _ => Except.ok parsedW1

/-- Fixture for the C1 witness: openssl behaviour producing `p12W1`. -/
def osslW1 : OpenSSLLib where
  from_der := fun _ => Except.ok p12W1

/-- C1 witness: a concrete PKCS#12 load returns a Pkcs8-variant key, and a
concrete PEM load returns exactly the parser-produced (Pkcs1) key. -/
theorem keys_pkcs8_only_for_pfx_witness :
    (PrivateKeyDer.Pkcs8 [7]).isPkcs8 = true ∧
    ∃ key_bytes, fsPemPair "server.key" = some key_bytes ∧
      pemRsaLib.private_key key_bytes = Except.ok (some (PrivateKeyDer.Pkcs1 [20])) :=
  ⟨keys_pkcs8_only_for_pfx.1 osslW1 [5] "pw" [[1]] (PrivateKeyDer.Pkcs8 [7]) rfl,
    keys_pkcs8_only_for_pfx.2 pemRsaLib fsPemPair "server.crt" "server.key"
      [[10]] (PrivateKeyDer.Pkcs1 [20]) rfl⟩

/-- C2 (amended): the PKCS#12 loader rejects an existing zero-length file
as EmptyFile ("File is empty") before any format parsing, whenever the
extension check does not fire first; the PEM loader has no empty-file
check, and an existing zero-length certificate file instead fails with
NoCertificatesFound. -/
theorem empty_file_handling
    (ossl : OpenSSLLib) (pem : PemLib) (fs : FS) (p cp kp : String)
    (pw : Option String) (vext : Bool) (kb : List Nat)
    (hfs : fs p = some [])
    (hext : pfxExtensionError p vext = none)
    (hcp : fs cp = some [])
    (hkp : fs kp = some kb)
    (hpem : pem.certs [] = []) :
    load_certificate ossl fs p pw vext = Except.error "File is empty" ∧
    load_pem_certificate pem fs cp kp =
      Except.error "No certificates found in PEM file" := by
  constructor
  · simp [load_certificate, hfs, hext]
  · simp [load_pem_certificate, hcp, hkp, hpem, collectResults]

/-- Fixture for C2: PEM-parser behaviour finding no certificate blocks (as
on a zero-length file) and an otherwise well-behaved key parser. -/
def pemEmptyLib : PemLib where
  certs := fun _ => []
  private_key := fun _ => Except.ok (some (PrivateKeyDer.Pkcs8 [1]))

/-- Fixture for C2: a filesystem holding a zero-length PFX file, a
zero-length PEM certificate file and a nonempty key file. -/
def fsW2 : FS := fun p =>
  if p = "bundle.pfx" then some []
  else if p = "server.pem" then some []
  else if p = "server.key" then some [3]
  else none

/-- C2 counterexample: loading a zero-length PEM certificate file does not
fail with the EmptyFile error ("File is empty"); it fails with
NoCertificatesFound, refuting the claim for the PEM source. -/
theorem empty_file_counterexample :
    load_pem_certificate pemEmptyLib fsW2 "server.pem" "server.key" =
      Except.error "No certificates found in PEM file" ∧
    ("No certificates found in PEM file" : String) ≠ "File is empty" :=
  ⟨rfl, by decide⟩

/-- Fixture for the C2 witness: inert openssl behaviour (never reached). -/
def osslW2 : OpenSSLLib where
  from_der := fun _ => Except.error "unused"

/-- C2 witness: a zero-length PFX file is rejected as empty (for any
openssl behaviour), and a zero-length PEM certificate file yields
NoCertificatesFound. -/
theorem empty_file_handling_witness :
    load_certificate osslW2 fsW2 "bundle.pfx" none true =
      Except.error "File is empty" ∧
    load_pem_certificate pemEmptyLib fsW2 "server.pem" "server.key" =
      Except.error "No certificates found in PEM file" :=
  empty_file_handling osslW2 pemEmptyLib fsW2 "bundle.pfx" "server.pem" "server.key"
    none true [3] rfl rfl rfl rfl rfl

/-- The set of lower-cased file extensions `detect_cert_type` accepts. -/
def supportedExtension (ext : String) : Prop :=
  ext = "pfx" ∨ ext = "p12" ∨ ext = "pem" ∨ ext = "crt" ∨ ext = "cer" ∨
    ext = "cert" ∨ ext = "key"

instance : DecidablePred supportedExtension := fun ext => by
  unfold supportedExtension
  infer_instance

/-- C5: extension validation fires only in positional mode.  A positional
certificate path with an unsupported extension fails with the
UnsupportedExtension message naming the offending extension, while the
same file loaded through the `--pfx` named flag (extension validation
disabled) performs no extension check and proceeds to parse the file
bytes. -/
theorem extension_check_only_positional
    (ossl : OpenSSLLib) (pem : PemLib) (fs : FS) (p : String)
    (pk pw : Option String) (ext0 : String) (bytes : List Nat)
    (hext : Path.extension p = some ext0)
    (hsup : ¬ supportedExtension (toLowerStr ext0))
    (hfs : fs p = some bytes)
    (hnb : bytes.isEmpty = false) :
    main_load_certificate ossl pem fs (CertArgs.positionalMode p pk) =
      Except.error ("Failed to detect certificate type: " ++
        ("Unsupported certificate file extension: ." ++ toLowerStr ext0)) ∧
    main_load_certificate ossl pem fs (CertArgs.pfxMode p pw) =
      parse_pfx_bytes ossl bytes (pw.getD "") := by
  have hsup2 := hsup
  unfold supportedExtension at hsup2
  push_neg at hsup2
  obtain ⟨h1, h2, h3, h4, h5, h6, h7⟩ := hsup2
  have hdet : detect_cert_type p =
      Except.error ("Unsupported certificate file extension: ." ++ toLowerStr ext0) := by
    simp [detect_cert_type, hext, h1, h2, h3, h4, h5, h6, h7]
  constructor
  · simp [main_load_certificate, hdet]
  · simp [main_load_certificate, load_certificate, pfxExtensionError, hfs, hnb]

/-- Fixture for the C5 witness: a filesystem holding one file named
server.txt. -/
def fsW5 : FS := fun p => if p = "server.txt" then some [9] else none

/-- Fixture for the C5 witness: openssl behaviour that rejects the bytes
as a PFX structure (its answer is irrelevant to the claim). -/
def osslW5 : OpenSSLLib where
  from_der := fun _ => Except.error "not a PFX structure"

/-- Fixture for the C5 witness: inert PEM-parser behaviour. -/
def pemW5 : PemLib where
  certs := fun _ => []
  private_key := fun _ => Except.error "unused"

/-- C5 witness: positional mode rejects server.txt with the
unsupported-extension message; the `--pfx` named flag on the same file
reaches the byte parser. -/
theorem extension_check_only_positional_witness :
    main_load_certificate osslW5 pemW5 fsW5 (CertArgs.positionalMode "server.txt" none) =
      Except.error ("Failed to detect certificate type: " ++
        ("Unsupported certificate file extension: ." ++ toLowerStr "txt")) ∧
    main_load_certificate osslW5 pemW5 fsW5 (CertArgs.pfxMode "server.txt" none) =
      parse_pfx_bytes osslW5 [9] ((none : Option String).getD "") :=
  extension_check_only_positional osslW5 pemW5 fsW5 "server.txt" none none "txt" [9]
    (by decide) (by decide) rfl rfl

/-- C6: the PEM decoder collects the certificate blocks into the chain in
file order: a certificate file with zero blocks fails with
NoCertificatesFound, and a file whose stream is N successfully parsed
blocks yields exactly those N blocks, in order, as the chain (its length
is the number of blocks in the file). -/
theorem pem_chain_file_order
    (pem : PemLib) (fs : FS) (cp kp : String) (cb kb : List Nat)
    (blocks : List (List Nat)) (k : PrivateKeyDer)
    (hcp : fs cp = some cb)
    (hkp : fs kp = some kb) :
    (pem.certs cb = [] →
      load_pem_certificate pem fs cp kp =
        Except.error "No certificates found in PEM file") ∧
    (pem.certs cb = blocks.map Except.ok → blocks ≠ [] →
      pem.private_key kb = Except.ok (some k) →
      load_pem_certificate pem fs cp kp = Except.ok (blocks, k) ∧
      blocks.length = (pem.certs cb).length) := by
  constructor
  · intro h0
    simp [load_pem_certificate, hcp, hkp, h0, collectResults]
  · intro hbl hne hpk
    have hemp : blocks.isEmpty = false := by
      cases blocks with
      | nil => exact absurd rfl hne
      | cons b bs => rfl
    constructor
    · simp [load_pem_certificate, hcp, hkp, hbl, collectResults_map_ok, hemp, hpk]
    · rw [hbl, List.length_map]

/-- Fixture for the C6 witness: PEM-parser behaviour finding no
certificate blocks. -/
def pemZeroW6 : PemLib where
  certs := fun _ => []
  private_key := fun _ => Except.ok (some (PrivateKeyDer.Pkcs8 [4]))

/-- Fixture for the C6 witness: PEM-parser behaviour finding three valid
certificate blocks in file order. -/
def pemThreeW6 : PemLib where
  certs := fun _ => [Except.ok [1], Except.ok [2], Except.ok [3]]
  private_key := fun _ => Except.ok (some (PrivateKeyDer.Pkcs8 [4]))

/-- Fixture for the C6 witness: a filesystem with a chain file and a key
file. -/
def fsW6 : FS := fun p =>
  if p = "chain.pem" then some [8]
  else if p = "key.pem" then some [9]
  else none

/-- C6 witness: zero blocks give NoCertificatesFound; three valid blocks
give a chain of length 3 in file order. -/
theorem pem_chain_file_order_witness :
    load_pem_certificate pemZeroW6 fsW6 "chain.pem" "key.pem" =
      Except.error "No certificates found in PEM file" ∧
    (load_pem_certificate pemThreeW6 fsW6 "chain.pem" "key.pem" =
      Except.ok ([[1], [2], [3]], PrivateKeyDer.Pkcs8 [4]) ∧
    ([[1], [2], [3]] : List (List Nat)).length = (pemThreeW6.certs [8]).length) :=
  ⟨(pem_chain_file_order pemZeroW6 fsW6 "chain.pem" "key.pem" [8] [9] []
      (PrivateKeyDer.Pkcs8 [4]) rfl rfl).1 rfl,
    (pem_chain_file_order pemThreeW6 fsW6 "chain.pem" "key.pem" [8] [9]
      [[1], [2], [3]] (PrivateKeyDer.Pkcs8 [4]) rfl rfl).2 rfl (by decide) rfl⟩
